import Mathlib

/-
Verification of the `ReactNodeView` adapter in
`@remirror/react-utils/src/react-node-view.tsx`.

The adapter implements the ProseMirror node-view contract
(`dom`, `contentDOM`, `update`, `destroy`) by delegating rendering to a
React component mounted through a portal container.  The embedding below
models the ProseMirror node objects, the DOM as an explicit state, the
portal container as an event log, and each method of the class as a pure
state transformer, following the TypeScript source line by line.
-/

namespace RNV

/-- The second entry `domSpec[1]` of an array-shaped DOM output spec.
In the source, `isPlainObject(attrs)` distinguishes a plain attribute
object from anything else (a content hole number, a nested spec, or an
absent entry); every non-plain-object value falls through to the raw
`node.attrs` copy in `setDomAttrs`. -/
inductive SpecSecond where
  | plainObj (attrs : List (String × String))
  | other
deriving DecidableEq

/-- Result of applying a node type's `toDOM` spec to a node: a tag-name
string, an existing DOM node (identified by its id, as DOM nodes are
compared by reference), or an array whose head is the outer tag and whose
second entry may be an attribute object. -/
inductive DOMOutputSpec where
  | str (tag : String)
  | domNode (id : Nat)
  | arr (tag : String) (second : SpecSecond)
deriving DecidableEq

/-- A ProseMirror node as the adapter observes it: its (interned) type,
attribute map, marks and inline flag.  Node types are interned per schema,
so reference equality `this.node.type === node.type` is modelled as
equality of `typeId`. -/
structure PMNode where
  typeId : Nat
  attrs : List (String × String)
  marks : List String
  isInline : Bool
deriving DecidableEq

/-- The per-type schema information the adapter reads:
`type.name` and the optional `type.spec.toDOM` factory. -/
structure TypeSpec where
  name : String
  toDOM : Option (PMNode → DOMOutputSpec)

/-- ProseMirror's `Node.sameMarkup`: same type, same attributes, same
marks (external collaborator, modelled by its documented behavior). -/
def sameMarkup (a b : PMNode) : Bool :=
  a.typeId == b.typeId && a.attrs == b.attrs && a.marks == b.marks

/-- The DOM, as explicit state.  Elements are identified by `Nat` ids;
`nextId` is the next fresh id.  `edges` records child-parent links,
newest first, so `List.lookup` finds the current parent of a child. -/
structure DomState where
  nextId : Nat
  tag : Nat → String
  attrsOf : Nat → List (String × String)
  classesOf : Nat → List String
  edges : List (Nat × Nat)
  isElement : Nat → Bool

/-- `document.createElement(tag)`: allocates a fresh element id. -/
def createElement (d : DomState) (s : String) : Nat × DomState :=
  (d.nextId,
   { d with
      nextId := d.nextId + 1,
      tag := fun x => if x = d.nextId then s else d.tag x,
      attrsOf := fun x => if x = d.nextId then [] else d.attrsOf x,
      classesOf := fun x => if x = d.nextId then [] else d.classesOf x,
      isElement := fun x => if x = d.nextId then true else d.isElement x })

/-- Overwrite-or-append update of one attribute in an attribute list,
keeping the attribute's position when it is already present, as
`Element.setAttribute` does. -/
def setAttrList : List (String × String) → String → String → List (String × String)
  | [], k, v => [(k, v)]
  | (k1, v1) :: rest, k, v =>
    if k1 == k then (k1, v) :: rest else (k1, v1) :: setAttrList rest k v

/-- `element.setAttribute(k, v)`. -/
def setAttribute (d : DomState) (el : Nat) (k v : String) : DomState :=
  { d with
      attrsOf := fun x => if x = el then setAttrList (d.attrsOf x) k v else d.attrsOf x }

/-- `element.getAttribute(k)`. -/
def getAttr (d : DomState) (el : Nat) (k : String) : Option String :=
  List.lookup k (d.attrsOf el)

/-- `element.classList.add(c)`: appends the class unless already present. -/
def addClass (d : DomState) (el : Nat) (c : String) : DomState :=
  { d with
      classesOf := fun x =>
        if x = el then
          if (d.classesOf el).contains c then d.classesOf el else d.classesOf el ++ [c]
        else d.classesOf x }

/-- `parent.appendChild(child)`: the new edge shadows any previous parent
link of `child` (lookup finds the newest edge first). -/
def appendChild (d : DomState) (parent child : Nat) : DomState :=
  { d with edges := (child, parent) :: d.edges }

/-- Upward ancestor walk with fuel (the DOM guarantees finite acyclic
parent chains; the fuel makes the walk total in the model). -/
def containsAux (edges : List (Nat × Nat)) : Nat → Nat → Nat → Bool
  | 0, _, _ => false
  | fuel + 1, anc, x =>
    x == anc ||
      match List.lookup x edges with
      | none => false
      | some p => containsAux edges fuel anc p

/-- `anc.contains(x)`: inclusive descendant check, walking parents. -/
def contains (d : DomState) (anc x : Nat) : Bool :=
  containsAux d.edges (d.edges.length + 1) anc x

/-- A portal-container call: `render({render, container})` or
`remove(container)`, recorded with the container element's id. -/
inductive PortalEvent where
  | render (container : Nat)
  | remove (container : Nat)
deriving DecidableEq

/-- The mutable fields of a `ReactNodeView` instance that the modelled
methods read or write, plus the log of portal-container calls. -/
structure NodeViewState where
  node : PMNode
  domRef : Option Nat
  contentDOMWrapper : Option Nat
  contentDOM : Option Nat
  portal : List PortalEvent
deriving DecidableEq

/-- Constructor arguments that influence the modelled behavior: the
schema (typeId to `TypeSpec`), the `getContentDOM` extension point (the
base class returns `undefined`; a subclass may return a wrapper id and an
optional inner content id), and the styling inputs read by the `css`
getter. -/
structure NodeViewConfig where
  types : Nat → TypeSpec
  getContentDOM : Option (Nat × Option Nat)
  styleClass : String
  withoutEmotion : Bool

/-- External constant `EDITOR_CLASS_NAME` from `@remirror/core`. -/
def EDITOR_CLASS_NAME : String := "remirror-editor"

/-- The `css` getter: the emotion class for `this.style`, or the empty
string produced by `cssNoOp` when `withoutEmotion` is set. -/
def cssClass (cfg : NodeViewConfig) : String :=
  if cfg.withoutEmotion then "" else cfg.styleClass

/-- The state of a freshly constructed instance: the constructor assigns
the node but creates no DOM element and issues no portal call. -/
def mkReactNodeView (node : PMNode) : NodeViewState :=
  { node := node, domRef := none, contentDOMWrapper := none,
    contentDOM := none, portal := [] }

/-- `createDomRef()`: ask the node type's `toDOM` for a spec; a string
becomes a fresh element with that tag; an existing DOM node must be an
element (else `throw new Error(...)`); an array uses its outer tag; with
no `toDOM`, inline nodes get a `span` and block nodes a `div`. -/
def createDomRef (cfg : NodeViewConfig) (node : PMNode) (d : DomState) :
    Except String (Nat × DomState) :=
  match (cfg.types node.typeId).toDOM with
  | some toDOM =>
    match toDOM node with
    | .str s => .ok (createElement d s)
    | .domNode id =>
      if d.isElement id then .ok (id, d)
      else .error "Invalid HTML Element provided in the DOM Spec"
    | .arr tagName _ => .ok (createElement d tagName)
  | none =>
    .ok (createElement d (if node.isInline then "span" else "div"))

/-- The attribute list that one `setDomAttrs(node, element)` call writes:
nothing for a string or DOM-node spec; the plain attribute object of an
array spec; otherwise (array without a plain object, or no `toDOM`) the
node's own attribute map.  `thisTypeId` is the type of the stored
`this.node`, whose `spec.toDOM` the source reads. -/
def derivedAttrs (cfg : NodeViewConfig) (thisTypeId : Nat) (node : PMNode) :
    List (String × String) :=
  match (cfg.types thisTypeId).toDOM with
  | some toDOM =>
    match toDOM node with
    | .str _ => []
    | .domNode _ => []
    | .arr _ second =>
      match second with
      | .plainObj attrList => attrList
      | .other => node.attrs
  | none => node.attrs

/-- `Object.keys(attrs).forEach(attr => element.setAttribute(attr, ...))`. -/
def copyAttrList (d : DomState) (el : Nat) (pairs : List (String × String)) : DomState :=
  pairs.foldl (fun acc kv => setAttribute acc el kv.1 kv.2) d

/-- `setDomAttrs(node, element)`: copies attributes from the node onto
the element, following the source's early returns. -/
def setDomAttrs (cfg : NodeViewConfig) (thisTypeId : Nat) (node : PMNode)
    (el : Nat) (d : DomState) : DomState :=
  match (cfg.types thisTypeId).toDOM with
  | some toDOM =>
    match toDOM node with
    | .str _ => d
    | .domNode _ => d
    | .arr _ second =>
      match second with
      | .plainObj attrList => copyAttrList d el attrList
      | .other => copyAttrList d el node.attrs
  | none => copyAttrList d el node.attrs

/-- `init()`: create the dom ref, copy the node's attributes onto it,
attach the optional content wrapper, add the class names, and mount the
component through the portal container. -/
def init (cfg : NodeViewConfig) (node : PMNode) (d : DomState) :
    Except String (NodeViewState × DomState) :=
  match createDomRef cfg node d with
  | .error e => .error e
  | .ok (ref, d1) =>
    let d2 := setDomAttrs cfg node.typeId node ref d1
    let withContent : Option Nat × Option Nat × DomState :=
      match cfg.getContentDOM with
      | some (wrapper, content) =>
        (some (content.getD wrapper), some wrapper, appendChild d2 ref wrapper)
      | none => (none, none, d2)
    let d3 := withContent.2.2
    let d4 := addClass d3 ref
      (EDITOR_CLASS_NAME ++ "-" ++ (cfg.types node.typeId).name ++ "-node-view")
    let d5 := addClass d4 ref (cssClass cfg)
    .ok
      ({ node := node, domRef := some ref,
         contentDOMWrapper := withContent.2.1, contentDOM := withContent.1,
         portal := [PortalEvent.render ref] },
       d5)

/-- The content target `this.contentDOMWrapper || this.contentDOM`
computed at the top of `handleRef`. -/
def resolvedContent (st : NodeViewState) : Option Nat :=
  match st.contentDOMWrapper with
  | some w => some w
  | none => st.contentDOM

/-- `handleRef`: after rendering, move the content subtree inside the
supplied node unless that node already contains it. -/
def handleRef (st : NodeViewState) (node : Option Nat) (d : DomState) : DomState :=
  match node, resolvedContent st with
  | some n, some c => if contains d n c then d else appendChild d n c
  | _, _ => d

/-- `update(node, _, validUpdate)` (the predicate defaults to always
true at the call sites that omit it): reject when the type changed or the
predicate rejects; otherwise sync attributes when the markup changed,
store the new node, and re-render through the portal container.  Returns
the boolean result together with the new instance and DOM states. -/
def update (cfg : NodeViewConfig) (st : NodeViewState) (node : PMNode)
    (validUpdate : PMNode → PMNode → Bool) (d : DomState) :
    Bool × NodeViewState × DomState :=
  let isValidUpdate := st.node.typeId == node.typeId && validUpdate st.node node
  if !isValidUpdate then (false, st, d)
  else
    let d1 :=
      match st.domRef with
      | some ref =>
        if sameMarkup st.node node then d else setDomAttrs cfg st.node.typeId node ref d
      | none => d
    let st1 := { st with node := node }
    let st2 :=
      match st1.domRef with
      | some ref => { st1 with portal := st1.portal ++ [PortalEvent.render ref] }
      | none => st1
    (true, st2, d1)

/-- `destroy()`: with no dom ref, return at once; otherwise ask the
portal container to remove the component from the backing element and
clear `domRef` and `contentDOM` (the source leaves `contentDOMWrapper`
untouched). -/
def destroy (st : NodeViewState) : NodeViewState :=
  match st.domRef with
  | none => st
  | some ref =>
    { st with portal := st.portal ++ [PortalEvent.remove ref],
              domRef := none, contentDOM := none }

/-- Last-wins lookup: the value the final `setAttribute` of a key in the
list leaves behind. -/
def lookupLast (k : String) (pairs : List (String × String)) : Option String :=
  List.lookup k pairs.reverse

/-- An empty document: no elements, no edges. -/
def emptyDom : DomState :=
  { nextId := 0, tag := fun _ => "", attrsOf := fun _ => [],
    classesOf := fun _ => [], edges := [], isElement := fun _ => false }

/-- A block node type with no `toDOM` spec, for concrete instances. -/
def tSpec0 : TypeSpec := { name := "para", toDOM := none }

/-- A configuration whose schema has no `toDOM` specs, no content
wrapper, and emotion enabled. -/
def cfg0 : NodeViewConfig :=
  { types := fun _ => tSpec0, getContentDOM := none,
    styleClass := "sty", withoutEmotion := false }

/-- A concrete block node of type 0 with one attribute. -/
def nodeA : PMNode := { typeId := 0, attrs := [("a", "1")], marks := [], isInline := false }

/-- A concrete block node of type 0 with a different attribute. -/
def nodeB : PMNode := { typeId := 0, attrs := [("b", "2")], marks := [], isInline := false }

/-- A concrete inline node of type 1. -/
def nodeC : PMNode := { typeId := 1, attrs := [], marks := [], isInline := true }

theorem copyAttrList_cons (d : DomState) (el : Nat) (kv : String × String)
    (rest : List (String × String)) :
    copyAttrList d el (kv :: rest) = copyAttrList (setAttribute d el kv.1 kv.2) el rest := rfl

theorem copyAttrList_nextId (pairs : List (String × String)) (d : DomState) (el : Nat) :
    (copyAttrList d el pairs).nextId = d.nextId := by
  induction pairs generalizing d with
  | nil => rfl
  | cons kv rest ih => rw [copyAttrList_cons, ih]; rfl

theorem copyAttrList_tag (pairs : List (String × String)) (d : DomState) (el : Nat) :
    (copyAttrList d el pairs).tag = d.tag := by
  induction pairs generalizing d with
  | nil => rfl
  | cons kv rest ih => rw [copyAttrList_cons, ih]; rfl

theorem copyAttrList_edges (pairs : List (String × String)) (d : DomState) (el : Nat) :
    (copyAttrList d el pairs).edges = d.edges := by
  induction pairs generalizing d with
  | nil => rfl
  | cons kv rest ih => rw [copyAttrList_cons, ih]; rfl

theorem copyAttrList_isElement (pairs : List (String × String)) (d : DomState) (el : Nat) :
    (copyAttrList d el pairs).isElement = d.isElement := by
  induction pairs generalizing d with
  | nil => rfl
  | cons kv rest ih => rw [copyAttrList_cons, ih]; rfl

theorem setDomAttrs_eq_copy (cfg : NodeViewConfig) (t : Nat) (n : PMNode)
    (el : Nat) (d : DomState) :
    setDomAttrs cfg t n el d = copyAttrList d el (derivedAttrs cfg t n) := by
  unfold setDomAttrs derivedAttrs
  rcases h1 : (cfg.types t).toDOM with _ | f
  · rfl
  · rcases h2 : f n with s | id | ⟨tg, second⟩
    · simp only [h2]; rfl
    · simp only [h2]; rfl
    · rcases second with attrsL | _ <;> simp only [h2]

theorem setDomAttrs_nextId (cfg : NodeViewConfig) (t : Nat) (n : PMNode)
    (el : Nat) (d : DomState) :
    (setDomAttrs cfg t n el d).nextId = d.nextId := by
  rw [setDomAttrs_eq_copy, copyAttrList_nextId]

theorem setDomAttrs_tag (cfg : NodeViewConfig) (t : Nat) (n : PMNode)
    (el : Nat) (d : DomState) :
    (setDomAttrs cfg t n el d).tag = d.tag := by
  rw [setDomAttrs_eq_copy, copyAttrList_tag]

theorem setDomAttrs_edges (cfg : NodeViewConfig) (t : Nat) (n : PMNode)
    (el : Nat) (d : DomState) :
    (setDomAttrs cfg t n el d).edges = d.edges := by
  rw [setDomAttrs_eq_copy, copyAttrList_edges]

theorem appendChild_tag (d : DomState) (p c : Nat) : (appendChild d p c).tag = d.tag := rfl

theorem addClass_tag (d : DomState) (el : Nat) (c : String) : (addClass d el c).tag = d.tag := rfl

/-- When `createDomRef` succeeds, `init` succeeds, stores the created
element as the dom ref, and the later steps of `init` (attribute copy,
content attachment, class names, portal mount) change no element's tag. -/
theorem init_ok (cfg : NodeViewConfig) (node : PMNode) (d : DomState) (ref : Nat)
    (d1 : DomState) (h : createDomRef cfg node d = Except.ok (ref, d1)) :
    ∃ st d2, init cfg node d = Except.ok (st, d2) ∧ st.domRef = some ref ∧
      d2.tag = d1.tag := by
  unfold init
  rw [h]
  refine ⟨_, _, rfl, rfl, ?_⟩
  rcases hg : cfg.getContentDOM with _ | ⟨w, c⟩ <;>
    simp [hg, addClass, appendChild, setDomAttrs_tag]

/-- C1: `update()` returns false whenever the replacement node's type
differs from the current node's type (regardless of the supplied validity
predicate), and whenever the predicate returns false, even when the two
types are equal. -/
theorem C1_update_rejects (cfg : NodeViewConfig) (st : NodeViewState) (node : PMNode)
    (pred : PMNode → PMNode → Bool) (d : DomState)
    (h : st.node.typeId ≠ node.typeId ∨ pred st.node node = false) :
    (update cfg st node pred d).1 = false := by
  have hval : (st.node.typeId == node.typeId && pred st.node node) = false := by
    rcases h with h | h
    · have : (st.node.typeId == node.typeId) = false := beq_eq_false_iff_ne.mpr h
      simp [this]
    · simp [h]
  unfold update
  simp [hval]

/-- C1 witness: a type-changing update (type 0 to type 1) is rejected
even with an always-true predicate. -/
theorem C1_update_rejects_witness :
    (update cfg0 (mkReactNodeView nodeA) nodeC (fun _ _ => true) emptyDom).1 = false :=
  C1_update_rejects cfg0 (mkReactNodeView nodeA) nodeC (fun _ _ => true) emptyDom
    (Or.inl (by decide))

/-- C5: `destroy()` is idempotent: a second `destroy()` after a first is
a no-op, and `destroy()` on a freshly constructed instance (no DOM
element ever created, `init` never called) is also a no-op.  Totality of
`destroy` in the model reflects that the source method cannot throw. -/
theorem C5_destroy_idempotent :
    (∀ st : NodeViewState, destroy (destroy st) = destroy st) ∧
    (∀ node : PMNode, destroy (mkReactNodeView node) = mkReactNodeView node) := by
  constructor
  · intro st
    rcases h : st.domRef with _ | ref
    · simp [destroy, h]
    · simp [destroy, h]
  · intro node
    rfl

/-- C9: whenever `update()` returns true, the backing element reference
is unchanged and no DOM element was created, retagged, or moved: the
element is mutated in place, never replaced. -/
theorem C9_element_preserved (cfg : NodeViewConfig) (st : NodeViewState) (node : PMNode)
    (pred : PMNode → PMNode → Bool) (d : DomState)
    (h : (update cfg st node pred d).1 = true) :
    (update cfg st node pred d).2.1.domRef = st.domRef ∧
    (update cfg st node pred d).2.2.nextId = d.nextId ∧
    (update cfg st node pred d).2.2.tag = d.tag ∧
    (update cfg st node pred d).2.2.edges = d.edges := by
  by_cases hv : (st.node.typeId == node.typeId && pred st.node node) = true
  · unfold update
    simp only [hv, Bool.not_true, Bool.false_eq_true, if_false]
    rcases hr : st.domRef with _ | ref
    · simp [hr]
    · by_cases hm : sameMarkup st.node node = true
      · simp [hr, hm]
      · simp [hr, hm, setDomAttrs_nextId, setDomAttrs_tag, setDomAttrs_edges]
  · exfalso
    unfold update at h
    simp only [Bool.not_eq_true] at hv
    simp [hv] at h

/-- C9 witness: an accepted update (same type, accepting predicate) on a
concrete instance preserves the dom ref and allocates nothing. -/
theorem C9_element_preserved_witness :
    ((update cfg0 (mkReactNodeView nodeA) nodeB (fun _ _ => true) emptyDom).2.1.domRef
       = (mkReactNodeView nodeA).domRef) ∧
    ((update cfg0 (mkReactNodeView nodeA) nodeB (fun _ _ => true) emptyDom).2.2.nextId
       = emptyDom.nextId) :=
  let r := C9_element_preserved cfg0 (mkReactNodeView nodeA) nodeB (fun _ _ => true)
    emptyDom (by decide)
  ⟨r.1, r.2.1⟩

/-- C10: rejected updates are atomic: whenever `update()` returns false,
the instance state (stored node, contentDOM reference, portal log — so no
re-render was requested) and the whole DOM state (element, attributes,
edges) are exactly unchanged. -/
theorem C10_rejected_update_atomic (cfg : NodeViewConfig) (st : NodeViewState)
    (node : PMNode) (pred : PMNode → PMNode → Bool) (d : DomState)
    (h : (update cfg st node pred d).1 = false) :
    update cfg st node pred d = (false, st, d) := by
  unfold update at *
  by_cases hv : (st.node.typeId == node.typeId && pred st.node node) = true
  · simp [hv] at h
  · simp only [Bool.not_eq_true] at hv
    simp [hv]

/-- C10 witness: a rejected update (predicate refuses) leaves the
concrete instance and DOM states untouched. -/
theorem C10_rejected_update_atomic_witness :
    update cfg0 (mkReactNodeView nodeA) nodeB (fun _ _ => false) emptyDom
      = (false, mkReactNodeView nodeA, emptyDom) :=
  C10_rejected_update_atomic cfg0 (mkReactNodeView nodeA) nodeB (fun _ _ => false)
    emptyDom (by decide)

/-- A node type whose `toDOM` spec yields the tag-name string "pre". -/
def tSpecStr : TypeSpec :=
  { name := "code", toDOM := some (fun _ => DOMOutputSpec.str "pre") }

/-- A configuration whose schema always answers with `tSpecStr`. -/
def cfgStr : NodeViewConfig :=
  { types := fun _ => tSpecStr, getContentDOM := none,
    styleClass := "", withoutEmotion := false }

/-- A node type whose `toDOM` spec yields DOM node 7, which is not an
element in `emptyDom`. -/
def tSpecBad : TypeSpec :=
  { name := "bad", toDOM := some (fun _ => DOMOutputSpec.domNode 7) }

/-- A configuration whose schema always answers with `tSpecBad`. -/
def cfgBad : NodeViewConfig :=
  { types := fun _ => tSpecBad, getContentDOM := none,
    styleClass := "", withoutEmotion := false }

/-- C3: when the node type's `toDOM` spec applied to the node yields a
tag-name string, `createDomRef` creates a fresh element (id `d.nextId`)
with that tag, and `init` succeeds storing that element as the dom ref,
still with that tag. -/
theorem C3_toDOM_string_tag (cfg : NodeViewConfig) (node : PMNode) (d : DomState)
    (f : PMNode → DOMOutputSpec) (s : String)
    (hf : (cfg.types node.typeId).toDOM = some f)
    (hs : f node = DOMOutputSpec.str s) :
    createDomRef cfg node d = Except.ok (createElement d s) ∧
    (createElement d s).1 = d.nextId ∧
    (createElement d s).2.tag d.nextId = s ∧
    ∃ st d2, init cfg node d = Except.ok (st, d2) ∧ st.domRef = some d.nextId ∧
      d2.tag d.nextId = s := by
  have hcreate : createDomRef cfg node d = Except.ok (createElement d s) := by
    unfold createDomRef
    simp only [hf, hs]
  have htag : (createElement d s).2.tag d.nextId = s := by simp [createElement]
  obtain ⟨st, d2, hinit, href, htag2⟩ :=
    init_ok cfg node d d.nextId (createElement d s).2 (by rw [hcreate]; exact rfl)
  exact ⟨hcreate, rfl, htag, st, d2, hinit, href, by rw [htag2]; exact htag⟩

/-- C3 witness: with a schema whose `toDOM` yields "pre", initialization
of a concrete node in the empty document creates element 0 tagged "pre". -/
theorem C3_toDOM_string_tag_witness :
    createDomRef cfgStr nodeA emptyDom = Except.ok (createElement emptyDom "pre") ∧
    (createElement emptyDom "pre").1 = emptyDom.nextId ∧
    (createElement emptyDom "pre").2.tag emptyDom.nextId = "pre" ∧
    ∃ st d2, init cfgStr nodeA emptyDom = Except.ok (st, d2) ∧
      st.domRef = some emptyDom.nextId ∧ d2.tag emptyDom.nextId = "pre" :=
  C3_toDOM_string_tag cfgStr nodeA emptyDom (fun _ => DOMOutputSpec.str "pre") "pre"
    rfl rfl

/-- C4: when the node type has no `toDOM` spec, `createDomRef` creates a
fresh element whose tag is "span" exactly when the node is inline and
"div" otherwise, and `init` succeeds with that element as the dom ref. -/
theorem C4_no_toDOM_default_tag (cfg : NodeViewConfig) (node : PMNode) (d : DomState)
    (hf : (cfg.types node.typeId).toDOM = none) :
    ∃ d1, createDomRef cfg node d = Except.ok (d.nextId, d1) ∧
      d1.tag d.nextId = (if node.isInline then "span" else "div") ∧
      ((d1.tag d.nextId = "span") ↔ node.isInline = true) ∧
      ∃ st d2, init cfg node d = Except.ok (st, d2) ∧ st.domRef = some d.nextId ∧
        d2.tag d.nextId = (if node.isInline then "span" else "div") := by
  have hcreate : createDomRef cfg node d
      = Except.ok (createElement d (if node.isInline then "span" else "div")) := by
    unfold createDomRef
    simp only [hf]
  have htag : (createElement d (if node.isInline then "span" else "div")).2.tag d.nextId
      = (if node.isInline then "span" else "div") := by simp [createElement]
  obtain ⟨st, d2, hinit, href, htag2⟩ :=
    init_ok cfg node d d.nextId
      (createElement d (if node.isInline then "span" else "div")).2
      (by rw [hcreate]; exact rfl)
  refine ⟨_, by rw [hcreate]; exact rfl, htag, ?_, st, d2, hinit, href,
    by rw [htag2]; exact htag⟩
  rw [htag]
  cases node.isInline <;> simp

/-- C4 witness: an inline node without a `toDOM` spec gets a "span"
element; the block node `nodeA` in the same schema would get a "div". -/
theorem C4_no_toDOM_default_tag_witness :
    ∃ d1, createDomRef cfg0 nodeC emptyDom = Except.ok (emptyDom.nextId, d1) ∧
      d1.tag emptyDom.nextId = (if nodeC.isInline then "span" else "div") ∧
      ((d1.tag emptyDom.nextId = "span") ↔ nodeC.isInline = true) ∧
      ∃ st d2, init cfg0 nodeC emptyDom = Except.ok (st, d2) ∧
        st.domRef = some emptyDom.nextId ∧
        d2.tag emptyDom.nextId = (if nodeC.isInline then "span" else "div") :=
  C4_no_toDOM_default_tag cfg0 nodeC emptyDom rfl

/-- C6: when the `toDOM` spec evaluates to a DOM node that is not an
element, `createDomRef` — and hence `init` — stops at once with the
error "Invalid HTML Element provided in the DOM Spec" instead of
returning a value. -/
theorem C6_invalid_dom_node_error (cfg : NodeViewConfig) (node : PMNode) (d : DomState)
    (f : PMNode → DOMOutputSpec) (id : Nat)
    (hf : (cfg.types node.typeId).toDOM = some f)
    (hs : f node = DOMOutputSpec.domNode id)
    (hel : d.isElement id = false) :
    createDomRef cfg node d = Except.error "Invalid HTML Element provided in the DOM Spec" ∧
    init cfg node d = Except.error "Invalid HTML Element provided in the DOM Spec" := by
  have h1 : createDomRef cfg node d
      = Except.error "Invalid HTML Element provided in the DOM Spec" := by
    unfold createDomRef
    simp [hf, hs, hel]
  refine ⟨h1, ?_⟩
  unfold init
  rw [h1]

/-- C6 witness: a schema whose `toDOM` yields DOM node 7, not an element
in the empty document, makes both `createDomRef` and `init` fail with
the source's error message. -/
theorem C6_invalid_dom_node_error_witness :
    createDomRef cfgBad nodeA emptyDom
      = Except.error "Invalid HTML Element provided in the DOM Spec" ∧
    init cfgBad nodeA emptyDom
      = Except.error "Invalid HTML Element provided in the DOM Spec" :=
  C6_invalid_dom_node_error cfgBad nodeA emptyDom (fun _ => DOMOutputSpec.domNode 7) 7
    rfl rfl rfl

/-- An adapter state mid-lifecycle with a content wrapper (as a subclass
overriding `getContentDOM` produces): element 0 is the backing element,
node 1 the content wrapper. -/
def stC8 : NodeViewState :=
  { node := nodeA, domRef := some 0, contentDOMWrapper := some 1,
    contentDOM := none, portal := [PortalEvent.render 0] }

theorem contains_appendChild (d : DomState) (n c : Nat) :
    contains (appendChild d n c) n c = true := by
  unfold contains appendChild
  by_cases h : c = n <;> simp [containsAux, List.lookup, h]

/-- C8: with a content subtree `c` (the wrapper if present, else the
contentDOM), `handleRef` invoked with a node `n` leaves the DOM unchanged
when `n` already contains `c`, appends `c` to `n` exactly when it does
not (after which `n` contains `c`), and a second call with the same node
leaves the DOM exactly as the first left it. -/
theorem C8_handleRef_idempotent (st : NodeViewState) (n c : Nat) (d : DomState)
    (hc : resolvedContent st = some c) :
    (contains d n c = true → handleRef st (some n) d = d) ∧
    (contains d n c = false →
      handleRef st (some n) d = appendChild d n c ∧
      contains (handleRef st (some n) d) n c = true) ∧
    handleRef st (some n) (handleRef st (some n) d) = handleRef st (some n) d := by
  have hdef : ∀ dd : DomState, handleRef st (some n) dd
      = if contains dd n c then dd else appendChild dd n c := by
    intro dd
    unfold handleRef
    rw [hc]
  refine ⟨?_, ?_, ?_⟩
  · intro h
    rw [hdef, if_pos h]
  · intro h
    have h1 : handleRef st (some n) d = appendChild d n c := by
      rw [hdef, if_neg (by simp [h])]
    exact ⟨h1, by rw [h1]; exact contains_appendChild d n c⟩
  · by_cases h : contains d n c = true
    · have hd : handleRef st (some n) d = d := by rw [hdef, if_pos h]
      rw [hd]
      exact hd
    · have h0 : contains d n c = false := by
        simpa using h
      have h1 : handleRef st (some n) d = appendChild d n c := by
        rw [hdef, if_neg (by simp [h0])]
      have h2 : handleRef st (some n) (appendChild d n c) = appendChild d n c := by
        rw [hdef, if_pos (contains_appendChild d n c)]
      rw [h1, h2]

/-- C8 witness: for the concrete adapter `stC8` (content wrapper 1) and
node 0 in the empty document, the callback appends on first call, is a
no-op once node 0 contains node 1, and the double call changes nothing. -/
theorem C8_handleRef_idempotent_witness :
    (contains emptyDom 0 1 = true → handleRef stC8 (some 0) emptyDom = emptyDom) ∧
    (contains emptyDom 0 1 = false →
      handleRef stC8 (some 0) emptyDom = appendChild emptyDom 0 1 ∧
      contains (handleRef stC8 (some 0) emptyDom) 0 1 = true) ∧
    handleRef stC8 (some 0) (handleRef stC8 (some 0) emptyDom)
      = handleRef stC8 (some 0) emptyDom :=
  C8_handleRef_idempotent stC8 0 1 emptyDom rfl

/-- A configuration like `cfg0` but whose `getContentDOM` extension point
(overridden by subclasses in the source) supplies content wrapper 5 with
no inner content node. -/
def cfgWrap : NodeViewConfig :=
  { types := fun _ => tSpec0, getContentDOM := some (5, none),
    styleClass := "", withoutEmotion := false }

/-- C7 counterexample: an instance initialized with a content wrapper
still holds its content-wrapper reference after `destroy()` — the source
clears `domRef` and `contentDOM` but never `contentDOMWrapper`, so not
every DOM reference held by the adapter is cleared. -/
theorem C7_counterexample :
    ∃ p : NodeViewState × DomState,
      init cfgWrap nodeA emptyDom = Except.ok p ∧
      p.1.contentDOMWrapper = some 5 ∧
      (destroy p.1).contentDOMWrapper = some 5 := ⟨_, rfl, rfl, rfl⟩

/-- C7 amended: a first `destroy()` on an instance with a dom ref asks
the portal collaborator to remove the component from the backing element
and clears the dom ref and the contentDOM reference; the content-wrapper
reference is left unchanged. -/
theorem C7_destroy_clears (st : NodeViewState) (ref : Nat) (h : st.domRef = some ref) :
    destroy st
      = { st with portal := st.portal ++ [PortalEvent.remove ref],
                  domRef := none, contentDOM := none } := by
  unfold destroy
  rw [h]

/-- C7 witness: destroying the concrete initialized adapter `stC8` logs
`remove 0` and clears `domRef` and `contentDOM` (its wrapper reference
`some 1` remains by the record update). -/
theorem C7_destroy_clears_witness :
    destroy stC8
      = { stC8 with portal := stC8.portal ++ [PortalEvent.remove 0],
                    domRef := none, contentDOM := none } :=
  C7_destroy_clears stC8 0 rfl

theorem lookup_setAttrList (l : List (String × String)) (k v k2 : String) :
    List.lookup k2 (setAttrList l k v) = if k2 = k then some v else List.lookup k2 l := by
  induction l with
  | nil =>
    by_cases h : k2 = k
    · simp [setAttrList, List.lookup, h]
    · simp [setAttrList, List.lookup, h, beq_eq_false_iff_ne.mpr h]
  | cons kv rest ih =>
    obtain ⟨k1, v1⟩ := kv
    by_cases h1 : k1 = k
    · subst h1
      by_cases h2 : k2 = k1
      · simp [setAttrList, List.lookup, h2]
      · simp [setAttrList, List.lookup, h2, beq_eq_false_iff_ne.mpr h2]
    · have h1b : (k1 == k) = false := beq_eq_false_iff_ne.mpr h1
      by_cases h2 : k2 = k1
      · subst h2
        have h3 : ¬ k2 = k := h1
        simp [setAttrList, h1b, List.lookup, h3]
      · have h2b : (k2 == k1) = false := beq_eq_false_iff_ne.mpr h2
        simp [setAttrList, h1b, List.lookup, h2b, ih]

theorem getAttr_setAttribute (d : DomState) (el : Nat) (k v k2 : String) :
    getAttr (setAttribute d el k v) el k2 = if k2 = k then some v else getAttr d el k2 := by
  unfold getAttr setAttribute
  simp [lookup_setAttrList]

theorem lookup_append (l1 l2 : List (String × String)) (k : String) :
    List.lookup k (l1 ++ l2)
      = match List.lookup k l1 with
        | some v => some v
        | none => List.lookup k l2 := by
  induction l1 with
  | nil => simp [List.lookup]
  | cons kv rest ih =>
    obtain ⟨k1, v1⟩ := kv
    by_cases h : k = k1
    · simp [List.lookup, h, ih]
    · simp [List.lookup, h, ih, beq_eq_false_iff_ne.mpr h]

theorem getAttr_copyAttrList (pairs : List (String × String)) (d : DomState) (el : Nat)
    (k : String) :
    getAttr (copyAttrList d el pairs) el k
      = match lookupLast k pairs with
        | some v => some v
        | none => getAttr d el k := by
  induction pairs generalizing d with
  | nil => simp [copyAttrList, lookupLast, List.lookup]
  | cons kv rest ih =>
    obtain ⟨k1, v1⟩ := kv
    rw [copyAttrList_cons, ih]
    unfold lookupLast
    rw [List.reverse_cons, lookup_append]
    rcases hl : List.lookup k rest.reverse with _ | v
    · rw [getAttr_setAttribute]
      by_cases h : k = k1
      · simp [List.lookup, h]
      · simp [List.lookup, h, beq_eq_false_iff_ne.mpr h]
    · simp

theorem getAttr_setDomAttrs (cfg : NodeViewConfig) (t : Nat) (n : PMNode) (el : Nat)
    (d : DomState) (k : String) :
    getAttr (setDomAttrs cfg t n el d) el k
      = match lookupLast k (derivedAttrs cfg t n) with
        | some v => some v
        | none => getAttr d el k := by
  rw [setDomAttrs_eq_copy, getAttr_copyAttrList]

/-- For an accepted update whose replacement node's markup differs from
the stored node's, the resulting DOM state is exactly one `setDomAttrs`
pass over the backing element. -/
theorem update_dom_of_changed (cfg : NodeViewConfig) (st : NodeViewState) (node : PMNode)
    (pred : PMNode → PMNode → Bool) (d : DomState) (ref : Nat)
    (href : st.domRef = some ref)
    (hm : sameMarkup st.node node = false)
    (h : (update cfg st node pred d).1 = true) :
    (update cfg st node pred d).2.2 = setDomAttrs cfg st.node.typeId node ref d := by
  by_cases hv : (st.node.typeId == node.typeId && pred st.node node) = true
  · unfold update
    simp [hv, href, hm]
  · exfalso
    unfold update at h
    simp only [Bool.not_eq_true] at hv
    simp [hv] at h

/-- C2 counterexample: initialize with a node carrying attribute a=1 and
accept an update to a same-type node carrying only b=2 (markup changed);
afterwards the backing element still answers a=1 although "a" is absent
from the new node's derived attribute set — a stale attribute remains, so
the element's attribute set does not equal the new set exactly. -/
theorem C2_counterexample :
    ∃ p : NodeViewState × DomState,
      init cfg0 nodeA emptyDom = Except.ok p ∧
      (update cfg0 p.1 nodeB (fun _ _ => true) p.2).1 = true ∧
      sameMarkup p.1.node nodeB = false ∧
      List.lookup "a" nodeB.attrs = none ∧
      lookupLast "a" (derivedAttrs cfg0 nodeB.typeId nodeB) = none ∧
      getAttr (update cfg0 p.1 nodeB (fun _ _ => true) p.2).2.2 0 "a" = some "1" :=
  ⟨_, rfl, rfl, rfl, rfl, rfl, rfl⟩

/-- C2 amended: when `update()` returns true and the markup changed, the
backing element afterwards answers, for every attribute key, the
last-written value from the new node's derived attribute set when the key
occurs there, and its previous value otherwise — attributes outside the
new set are left in place, not removed. -/
theorem C2_update_attr_sync (cfg : NodeViewConfig) (st : NodeViewState) (node : PMNode)
    (pred : PMNode → PMNode → Bool) (d : DomState) (ref : Nat) (k : String)
    (href : st.domRef = some ref)
    (hm : sameMarkup st.node node = false)
    (h : (update cfg st node pred d).1 = true) :
    getAttr ((update cfg st node pred d).2.2) ref k
      = match lookupLast k (derivedAttrs cfg st.node.typeId node) with
        | some v => some v
        | none => getAttr d ref k := by
  rw [update_dom_of_changed cfg st node pred d ref href hm h, getAttr_setDomAttrs]

/-- A concrete initialized adapter: backing element 0 carries the
attribute a=1 copied from `nodeA`. -/
def stA : NodeViewState :=
  { node := nodeA, domRef := some 0, contentDOMWrapper := none,
    contentDOM := none, portal := [PortalEvent.render 0] }

/-- The DOM after `stA` was initialized: one element with a=1. -/
def domA : DomState :=
  { emptyDom with
    nextId := 1,
    tag := fun x => if x = 0 then "div" else "",
    attrsOf := fun x => if x = 0 then [("a", "1")] else [],
    isElement := fun x => decide (x = 0) }

/-- C2 witness: for the accepted, markup-changing update of `stA` to
`nodeB`, the backing element's value at key "b" is the derived one. -/
theorem C2_update_attr_sync_witness :
    getAttr ((update cfg0 stA nodeB (fun _ _ => true) domA).2.2) 0 "b"
      = match lookupLast "b" (derivedAttrs cfg0 stA.node.typeId nodeB) with
        | some v => some v
        | none => getAttr domA 0 "b" :=
  C2_update_attr_sync cfg0 stA nodeB (fun _ _ => true) domA 0 "b" rfl rfl rfl

end RNV
